import Mathlib

/-!
Verification of the history analytics engine of `src/core/history_analyzer.py`.

The engine (`HistoryAnalyzer`) consumes query results from a sample store
(`database_manager`) and computes summary statistics and chart series.
Pandas dataframes are embedded as Lean lists of typed records, floats as
rationals, timestamps as rationals measured in hours, and the wall clock
(`datetime.now()`) as an explicit `now` argument.
-/

/-- One row of `get_system_history`: whole-system telemetry. -/
structure SystemSample where
  timestamp : ℚ
  cpu_percent : ℚ
  memory_percent : ℚ
  disk_percent : ℚ
  total_processes : ℤ
  deriving DecidableEq, Repr

/-- One row of `get_process_trend`: a named process's telemetry. -/
structure ProcessSample where
  process_name : String
  timestamp : ℚ
  cpu_percent : ℚ
  memory_mb : ℚ
  deriving DecidableEq, Repr

/-- One row of `get_top_processes_by_cpu`: a pre-aggregated ranking entry. -/
structure ProcessRanking where
  name : String
  avg_cpu : ℚ
  avg_memory : ℚ
  sample_count : ℕ
  deriving DecidableEq, Repr

/-- The sample store (`database_manager`) as a record of query functions:
its current contents determine the response to each query. -/
structure Store where
  get_system_history : ℤ → List SystemSample
  get_top_processes_by_cpu : ℤ → List ProcessRanking
  get_process_trend : String → List ProcessSample

/-- The dict returned by `get_system_summary`, with the source's key names. -/
structure SystemSummary where
  cpu_avg : ℚ
  cpu_max : ℚ
  memory_avg : ℚ
  memory_max : ℚ
  disk_avg : ℚ
  disk_max : ℚ
  processes_avg : ℤ
  start_time : ℚ
  end_time : ℚ
  data_points : ℕ
  deriving DecidableEq, Repr

/-- The dict returned by `get_process_analysis`, with the source's key names. -/
structure ProcessAnalysis where
  name : String
  cpu_avg : ℚ
  cpu_max : ℚ
  memory_avg : ℚ
  memory_max : ℚ
  data_points : ℕ
  trend_data : List ProcessSample
  deriving DecidableEq, Repr

/-- Pandas `Series.mean()`: the arithmetic mean (rational division; guarded
by non-emptiness at every use site in the source). -/
def listMean (xs : List ℚ) : ℚ := xs.sum / xs.length

/-- Pandas `Series.max()` on a non-empty column ( `0` for the empty column,
which the source never queries). -/
def listMax : List ℚ → ℚ
  | [] => 0
  | [x] => x
  | x :: y :: t => max x (listMax (y :: t))

/-- Pandas `Series.min()` on a non-empty column. -/
def listMin : List ℚ → ℚ
  | [] => 0
  | [x] => x
  | x :: y :: t => min x (listMin (y :: t))

/-- Python `int()` applied to a float: truncation toward zero. -/
def intTrunc (q : ℚ) : ℤ := if 0 ≤ q then ⌊q⌋ else ⌈q⌉

/-- `HistoryAnalyzer.get_system_summary(hours)`.  `now` stands for
`datetime.now()` and `timedelta(hours=hours)` is `hours` in hour units. -/
def get_system_summary (now : ℚ) (db : Store) (hours : ℤ) : SystemSummary :=
  let df := db.get_system_history hours
  if df = [] then
    { cpu_avg := 0
      cpu_max := 0
      memory_avg := 0
      memory_max := 0
      disk_avg := 0
      disk_max := 0
      processes_avg := 0
      start_time := now - (hours : ℚ)
      end_time := now
      data_points := 0 }
  else
    { cpu_avg := listMean (df.map SystemSample.cpu_percent)
      cpu_max := listMax (df.map SystemSample.cpu_percent)
      memory_avg := listMean (df.map SystemSample.memory_percent)
      memory_max := listMax (df.map SystemSample.memory_percent)
      disk_avg := listMean (df.map SystemSample.disk_percent)
      disk_max := listMax (df.map SystemSample.disk_percent)
      processes_avg := intTrunc (listMean (df.map fun s => (s.total_processes : ℚ)))
      start_time := listMin (df.map SystemSample.timestamp)
      end_time := listMax (df.map SystemSample.timestamp)
      data_points := df.length }

/-- `HistoryAnalyzer.get_top_processes(limit)`: a direct delegation to the
store's ranking query. -/
def get_top_processes (db : Store) (limit : ℤ) : List ProcessRanking :=
  db.get_top_processes_by_cpu limit

/-- `HistoryAnalyzer.get_process_analysis(process_name)`. -/
def get_process_analysis (db : Store) (process_name : String) : ProcessAnalysis :=
  let df := db.get_process_trend process_name
  if df = [] then
    { name := process_name
      cpu_avg := 0
      cpu_max := 0
      memory_avg := 0
      memory_max := 0
      data_points := 0
      trend_data := [] }
  else
    { name := process_name
      cpu_avg := listMean (df.map ProcessSample.cpu_percent)
      cpu_max := listMax (df.map ProcessSample.cpu_percent)
      memory_avg := listMean (df.map ProcessSample.memory_mb)
      memory_max := listMax (df.map ProcessSample.memory_mb)
      data_points := df.length
      trend_data := df }

/-- The matplotlib figure returned by `generate_process_trend_chart`,
reduced to the data it carries: either the placeholder text drawn on the
empty figure, or the plotted (timestamp, cpu_percent, memory_mb) points
taken row by row from the dataframe. -/
inductive TrendChart where
  | noData (message : String)
  | figure (points : List (ℚ × ℚ × ℚ))
  deriving DecidableEq, Repr

/-- `HistoryAnalyzer.generate_process_trend_chart(process_name)`:
`ax1.plot(df.timestamp, df.cpu_percent)` and
`ax2.plot(df.timestamp, df.memory_mb)` plot one point per row in row
order, merged here into one triple per row. -/
def generate_process_trend_chart (db : Store) (process_name : String) : TrendChart :=
  let df := db.get_process_trend process_name
  if df = [] then
    TrendChart.noData ("No data available for " ++ process_name)
  else
    TrendChart.figure (df.map fun s => (s.timestamp, s.cpu_percent, s.memory_mb))

/-! ## Spec-side characterizations (from the spec's words, for refinement) -/

/-- `m` is the maximum of `xs`: a member, and an upper bound. -/
def isMaxOf (m : ℚ) (xs : List ℚ) : Prop := m ∈ xs ∧ ∀ x ∈ xs, x ≤ m

/-- `m` is the minimum of `xs`: a member, and a lower bound. -/
def isMinOf (m : ℚ) (xs : List ℚ) : Prop := m ∈ xs ∧ ∀ x ∈ xs, m ≤ x

/-- `a` is the arithmetic mean of `xs` (product form, division-free). -/
def isMeanOf (a : ℚ) (xs : List ℚ) : Prop := a * xs.length = xs.sum

/-- A ranking list is sorted descending by `avg_cpu`. -/
def sortedByCpuDesc (l : List ProcessRanking) : Prop :=
  l.Pairwise (fun a b => b.avg_cpu ≤ a.avg_cpu)

instance (l : List ProcessRanking) : Decidable (sortedByCpuDesc l) :=
  inferInstanceAs (Decidable (l.Pairwise fun a b : ProcessRanking => b.avg_cpu ≤ a.avg_cpu))

/-! ## Lemmas about `listMax`, `listMin`, `listMean` -/

lemma listMax_mem : ∀ (xs : List ℚ), xs ≠ [] → listMax xs ∈ xs
  | [], h => absurd rfl h
  | [x], _ => by simp [listMax]
  | x :: y :: t, _ => by
      rcases max_cases x (listMax (y :: t)) with ⟨he, _⟩ | ⟨he, _⟩
      · simp [listMax, he]
      · have := listMax_mem (y :: t) (by simp)
        simp only [listMax, he]
        exact List.mem_cons_of_mem _ this

lemma le_listMax : ∀ (xs : List ℚ) (x : ℚ), x ∈ xs → x ≤ listMax xs
  | [], _, h => absurd h (List.not_mem_nil _)
  | [y], x, h => by
      simp only [List.mem_singleton] at h
      simp [listMax, h]
  | y :: z :: t, x, h => by
      rcases List.mem_cons.mp h with rfl | h2
      · exact le_max_left _ _
      · exact le_trans (le_listMax (z :: t) x h2) (le_max_right _ _)

lemma listMin_mem : ∀ (xs : List ℚ), xs ≠ [] → listMin xs ∈ xs
  | [], h => absurd rfl h
  | [x], _ => by simp [listMin]
  | x :: y :: t, _ => by
      rcases min_cases x (listMin (y :: t)) with ⟨he, _⟩ | ⟨he, _⟩
      · simp [listMin, he]
      · have := listMin_mem (y :: t) (by simp)
        simp only [listMin, he]
        exact List.mem_cons_of_mem _ this

lemma listMin_le : ∀ (xs : List ℚ) (x : ℚ), x ∈ xs → listMin xs ≤ x
  | [], _, h => absurd h (List.not_mem_nil _)
  | [y], x, h => by
      simp only [List.mem_singleton] at h
      simp [listMin, h]
  | y :: z :: t, x, h => by
      rcases List.mem_cons.mp h with rfl | h2
      · exact min_le_left _ _
      · exact le_trans (min_le_right _ _) (listMin_le (z :: t) x h2)

lemma sum_le_length_mul_listMax :
    ∀ (xs : List ℚ), xs ≠ [] → xs.sum ≤ (xs.length : ℚ) * listMax xs
  | [], h => absurd rfl h
  | [x], _ => by simp [listMax]
  | x :: y :: t, _ => by
      have ih := sum_le_length_mul_listMax (y :: t) (by simp)
      have hx : x ≤ max x (listMax (y :: t)) := le_max_left _ _
      have hM : listMax (y :: t) ≤ max x (listMax (y :: t)) := le_max_right _ _
      have hn : (0 : ℚ) ≤ ((y :: t).length : ℚ) := by positivity
      have h2 : ((y :: t).length : ℚ) * listMax (y :: t) ≤
          ((y :: t).length : ℚ) * max x (listMax (y :: t)) :=
        mul_le_mul_of_nonneg_left hM hn
      have hlen : ((x :: y :: t).length : ℚ) = ((y :: t).length : ℚ) + 1 := by
        push_cast [List.length_cons]
        ring
      calc (x :: y :: t).sum = x + (y :: t).sum := by simp
        _ ≤ max x (listMax (y :: t)) + ((y :: t).length : ℚ) * max x (listMax (y :: t)) :=
            add_le_add hx (le_trans ih h2)
        _ = ((x :: y :: t).length : ℚ) * listMax (x :: y :: t) := by
            rw [hlen, listMax]
            ring

lemma length_mul_listMin_le_sum :
    ∀ (xs : List ℚ), xs ≠ [] → (xs.length : ℚ) * listMin xs ≤ xs.sum
  | [], h => absurd rfl h
  | [x], _ => by simp [listMin]
  | x :: y :: t, _ => by
      have ih := length_mul_listMin_le_sum (y :: t) (by simp)
      have hx : min x (listMin (y :: t)) ≤ x := min_le_left _ _
      have hM : min x (listMin (y :: t)) ≤ listMin (y :: t) := min_le_right _ _
      have hn : (0 : ℚ) ≤ ((y :: t).length : ℚ) := by positivity
      have h2 : ((y :: t).length : ℚ) * min x (listMin (y :: t)) ≤
          ((y :: t).length : ℚ) * listMin (y :: t) :=
        mul_le_mul_of_nonneg_left hM hn
      have hlen : ((x :: y :: t).length : ℚ) = ((y :: t).length : ℚ) + 1 := by
        push_cast [List.length_cons]
        ring
      calc ((x :: y :: t).length : ℚ) * listMin (x :: y :: t)
          = min x (listMin (y :: t)) + ((y :: t).length : ℚ) * min x (listMin (y :: t)) := by
            rw [hlen, listMin]
            ring
        _ ≤ x + (y :: t).sum := add_le_add hx (le_trans h2 ih)
        _ = (x :: y :: t).sum := by simp

lemma length_pos_q {α : Type} (xs : List α) (h : xs ≠ []) : (0 : ℚ) < (xs.length : ℚ) := by
  have : 0 < xs.length := List.length_pos.mpr h
  exact_mod_cast this

lemma listMean_le_listMax (xs : List ℚ) (h : xs ≠ []) : listMean xs ≤ listMax xs := by
  have hn := length_pos_q xs h
  rw [listMean, div_le_iff₀ hn, mul_comm]
  exact sum_le_length_mul_listMax xs h

lemma listMin_le_listMean (xs : List ℚ) (h : xs ≠ []) : listMin xs ≤ listMean xs := by
  have hn := length_pos_q xs h
  rw [listMean, le_div_iff₀ hn, mul_comm]
  exact length_mul_listMin_le_sum xs h

lemma listMean_isMeanOf (xs : List ℚ) (h : xs ≠ []) : isMeanOf (listMean xs) xs := by
  have hn := length_pos_q xs h
  rw [isMeanOf, listMean, div_mul_cancel₀]
  exact ne_of_gt hn

lemma listMax_isMaxOf (xs : List ℚ) (h : xs ≠ []) : isMaxOf (listMax xs) xs :=
  ⟨listMax_mem xs h, fun x hx => le_listMax xs x hx⟩

lemma listMin_isMinOf (xs : List ℚ) (h : xs ≠ []) : isMinOf (listMin xs) xs :=
  ⟨listMin_mem xs h, fun x hx => listMin_le xs x hx⟩

lemma listMin_le_listMax (xs : List ℚ) (h : xs ≠ []) : listMin xs ≤ listMax xs :=
  le_listMax xs (listMin xs) (listMin_mem xs h)

/-! ## Concrete stores for witnesses and counterexamples -/

/-- A store with no data at all. -/
def storeEmpty : Store :=
  { get_system_history := fun _ => []
    get_top_processes_by_cpu := fun _ => []
    get_process_trend := fun _ => [] }

/-- The spec's end-to-end scenario: three SystemSamples with
cpu [10,20,30], memory [50,50,50], disk [1,2,3], processes [100,102,104],
timestamps 0 < 1 < 2; plus a two-entry ranking and a two-sample trend. -/
def storeThree : Store :=
  { get_system_history := fun _ =>
      [⟨0, 10, 50, 1, 100⟩, ⟨1, 20, 50, 2, 102⟩, ⟨2, 30, 50, 3, 104⟩]
    get_top_processes_by_cpu := fun _ =>
      [⟨"chrome", 10, 140, 2⟩, ⟨"idle", 4, 20, 7⟩]
    get_process_trend := fun _ =>
      [⟨"chrome", 0, 5, 120⟩, ⟨"chrome", 1, 15, 160⟩] }

/-- A store answering every query, whatever its argument, with one row. -/
def storeOne : Store :=
  { get_system_history := fun _ => [⟨1, 20, 50, 2, 102⟩]
    get_top_processes_by_cpu := fun _ => [⟨"idle", 4, 20, 7⟩]
    get_process_trend := fun _ => [⟨"chrome", 0, 5, 120⟩] }

/-! ## Claim theorems -/

/-- Spec-side description of `get_system_summary` on a non-empty result
(from the spec's words in §4.1). -/
def systemSummarySpec (df : List SystemSample) (r : SystemSummary) : Prop :=
  isMeanOf r.cpu_avg (df.map SystemSample.cpu_percent) ∧
  isMaxOf r.cpu_max (df.map SystemSample.cpu_percent) ∧
  isMeanOf r.memory_avg (df.map SystemSample.memory_percent) ∧
  isMaxOf r.memory_max (df.map SystemSample.memory_percent) ∧
  isMeanOf r.disk_avg (df.map SystemSample.disk_percent) ∧
  isMaxOf r.disk_max (df.map SystemSample.disk_percent) ∧
  r.processes_avg = intTrunc (listMean (df.map fun s => (s.total_processes : ℚ))) ∧
  isMinOf r.start_time (df.map SystemSample.timestamp) ∧
  isMaxOf r.end_time (df.map SystemSample.timestamp) ∧
  r.data_points = df.length

/-- C1: on a non-empty history, `get_system_summary` returns the arithmetic
means and maxima of cpu/memory/disk, the truncated mean of
`total_processes`, the minimum and maximum observed timestamps as
`start_time`/`end_time`, and the sample count. -/
theorem get_system_summary_nonempty_correct (now : ℚ) (db : Store) (hours : ℤ)
    (h : db.get_system_history hours ≠ []) :
    systemSummarySpec (db.get_system_history hours) (get_system_summary now db hours) := by
  have hc : (db.get_system_history hours).map SystemSample.cpu_percent ≠ [] := by
    simpa using h
  have hm : (db.get_system_history hours).map SystemSample.memory_percent ≠ [] := by
    simpa using h
  have hd : (db.get_system_history hours).map SystemSample.disk_percent ≠ [] := by
    simpa using h
  have ht : (db.get_system_history hours).map SystemSample.timestamp ≠ [] := by
    simpa using h
  simp only [get_system_summary, h, if_neg, reduceIte, systemSummarySpec]
  exact ⟨listMean_isMeanOf _ hc, listMax_isMaxOf _ hc,
    listMean_isMeanOf _ hm, listMax_isMaxOf _ hm,
    listMean_isMeanOf _ hd, listMax_isMaxOf _ hd,
    trivial, listMin_isMinOf _ ht, listMax_isMaxOf _ ht, trivial⟩

/-- C1 witness: the spec's end-to-end scenario store. -/
theorem get_system_summary_nonempty_correct_witness :
    storeThree.get_system_history 24 ≠ [] ∧
    systemSummarySpec (storeThree.get_system_history 24)
      (get_system_summary 50 storeThree 24) :=
  ⟨by decide, get_system_summary_nonempty_correct 50 storeThree 24 (by decide)⟩

/-- C2: for positive `hours`, an empty store result yields the zero-filled
summary with `start_time = now - hours`, `end_time = now`, so the window
width equals the requested hours; no exception path exists. -/
theorem get_system_summary_empty_zero_fill (now : ℚ) (db : Store) (hours : ℤ)
    ( _hpos : 0 < hours) (h : db.get_system_history hours = []) :
    get_system_summary now db hours =
      { cpu_avg := 0, cpu_max := 0, memory_avg := 0, memory_max := 0,
        disk_avg := 0, disk_max := 0, processes_avg := 0,
        start_time := now - (hours : ℚ), end_time := now, data_points := 0 } ∧
    (get_system_summary now db hours).end_time -
      (get_system_summary now db hours).start_time = (hours : ℚ) := by
  constructor
  · simp [get_system_summary, h]
  · simp [get_system_summary, h]

/-- C2 witness: the empty store at a 24-hour window. -/
theorem get_system_summary_empty_zero_fill_witness :
    (0 : ℤ) < 24 ∧ storeEmpty.get_system_history 24 = [] ∧
    (get_system_summary 100 storeEmpty 24 =
      { cpu_avg := 0, cpu_max := 0, memory_avg := 0, memory_max := 0,
        disk_avg := 0, disk_max := 0, processes_avg := 0,
        start_time := 100 - ((24 : ℤ) : ℚ), end_time := 100, data_points := 0 } ∧
    (get_system_summary 100 storeEmpty 24).end_time -
      (get_system_summary 100 storeEmpty 24).start_time = ((24 : ℤ) : ℚ)) :=
  ⟨by decide, rfl, get_system_summary_empty_zero_fill 100 storeEmpty 24 (by decide) rfl⟩

/-- C5: when the trend query returns no rows, `get_process_analysis`
returns the zero-filled analysis carrying the requested name, with an
empty trend series. -/
theorem get_process_analysis_empty_zero_fill (db : Store) (process_name : String)
    (h : db.get_process_trend process_name = []) :
    get_process_analysis db process_name =
      { name := process_name, cpu_avg := 0, cpu_max := 0,
        memory_avg := 0, memory_max := 0, data_points := 0, trend_data := [] } := by
  simp [get_process_analysis, h]

/-- C5 witness: an unknown process name on the empty store. -/
theorem get_process_analysis_empty_zero_fill_witness :
    storeEmpty.get_process_trend "ghost" = [] ∧
    get_process_analysis storeEmpty "ghost" =
      { name := "ghost", cpu_avg := 0, cpu_max := 0,
        memory_avg := 0, memory_max := 0, data_points := 0, trend_data := [] } :=
  ⟨rfl, get_process_analysis_empty_zero_fill storeEmpty "ghost" rfl⟩

/-- Spec-side description of `get_process_analysis` on a non-empty trend
(from the spec's words in §4.1). -/
def processAnalysisSpec (process_name : String) (df : List ProcessSample)
    (r : ProcessAnalysis) : Prop :=
  r.name = process_name ∧
  isMeanOf r.cpu_avg (df.map ProcessSample.cpu_percent) ∧
  isMaxOf r.cpu_max (df.map ProcessSample.cpu_percent) ∧
  isMeanOf r.memory_avg (df.map ProcessSample.memory_mb) ∧
  isMaxOf r.memory_max (df.map ProcessSample.memory_mb) ∧
  r.data_points = df.length ∧
  r.trend_data = df

/-- C6: on a non-empty trend, `get_process_analysis` returns the mean and
maximum of `cpu_percent` and of `memory_mb`, the sample count, and the
full returned sequence, in store order, as `trend_data`. -/
theorem get_process_analysis_nonempty_correct (db : Store) (process_name : String)
    (h : db.get_process_trend process_name ≠ []) :
    processAnalysisSpec process_name (db.get_process_trend process_name)
      (get_process_analysis db process_name) := by
  have hc : (db.get_process_trend process_name).map ProcessSample.cpu_percent ≠ [] := by
    simpa using h
  have hm : (db.get_process_trend process_name).map ProcessSample.memory_mb ≠ [] := by
    simpa using h
  simp only [get_process_analysis, h, if_neg, reduceIte, processAnalysisSpec]
  exact ⟨trivial, listMean_isMeanOf _ hc, listMax_isMaxOf _ hc,
    listMean_isMeanOf _ hm, listMax_isMaxOf _ hm, trivial, trivial⟩

/-- C6 witness: the two-sample trend of `storeThree`. -/
theorem get_process_analysis_nonempty_correct_witness :
    storeThree.get_process_trend "chrome" ≠ [] ∧
    processAnalysisSpec "chrome" (storeThree.get_process_trend "chrome")
      (get_process_analysis storeThree "chrome") :=
  ⟨by decide, get_process_analysis_nonempty_correct storeThree "chrome" (by decide)⟩

/-- C7: `get_top_processes` is an exact pass-through of the store's
ranking query: assuming the store returns at most `limit` entries sorted
descending by `avg_cpu`, the result is that list unmodified, so it keeps
both properties; fewer than `limit` entries are returned whole. -/
theorem get_top_processes_passthrough (db : Store) (limit : ℤ)
    (hs : sortedByCpuDesc (db.get_top_processes_by_cpu limit))
    (hl : (db.get_top_processes_by_cpu limit).length ≤ limit.toNat) :
    get_top_processes db limit = db.get_top_processes_by_cpu limit ∧
    sortedByCpuDesc (get_top_processes db limit) ∧
    (get_top_processes db limit).length ≤ limit.toNat :=
  ⟨rfl, hs, hl⟩

/-- C7 witness: a two-entry ranking with limit 5. -/
theorem get_top_processes_passthrough_witness :
    sortedByCpuDesc (storeThree.get_top_processes_by_cpu 5) ∧
    (storeThree.get_top_processes_by_cpu 5).length ≤ (5 : ℤ).toNat ∧
    (get_top_processes storeThree 5 = storeThree.get_top_processes_by_cpu 5 ∧
      sortedByCpuDesc (get_top_processes storeThree 5) ∧
      (get_top_processes storeThree 5).length ≤ (5 : ℤ).toNat) :=
  ⟨by decide, by decide, get_top_processes_passthrough storeThree 5 (by decide) (by decide)⟩

/-- C8: on a non-empty history, `cpu_avg` lies between the minimum and the
maximum observed `cpu_percent`, inclusive, and is exactly the arithmetic
mean (exact rationals stand in for floating point, so the tolerance is 0). -/
theorem cpu_avg_between_min_and_max (now : ℚ) (db : Store) (hours : ℤ)
    (h : db.get_system_history hours ≠ []) :
    listMin ((db.get_system_history hours).map SystemSample.cpu_percent) ≤
      (get_system_summary now db hours).cpu_avg ∧
    (get_system_summary now db hours).cpu_avg ≤
      listMax ((db.get_system_history hours).map SystemSample.cpu_percent) ∧
    isMeanOf (get_system_summary now db hours).cpu_avg
      ((db.get_system_history hours).map SystemSample.cpu_percent) := by
  have hc : (db.get_system_history hours).map SystemSample.cpu_percent ≠ [] := by
    simpa using h
  simp only [get_system_summary, h, if_neg, reduceIte]
  exact ⟨listMin_le_listMean _ hc, listMean_le_listMax _ hc, listMean_isMeanOf _ hc⟩

/-- C8 witness: the spec's end-to-end scenario store. -/
theorem cpu_avg_between_min_and_max_witness :
    storeThree.get_system_history 24 ≠ [] ∧
    (listMin ((storeThree.get_system_history 24).map SystemSample.cpu_percent) ≤
      (get_system_summary 50 storeThree 24).cpu_avg ∧
    (get_system_summary 50 storeThree 24).cpu_avg ≤
      listMax ((storeThree.get_system_history 24).map SystemSample.cpu_percent) ∧
    isMeanOf (get_system_summary 50 storeThree 24).cpu_avg
      ((storeThree.get_system_history 24).map SystemSample.cpu_percent)) :=
  ⟨by decide, cpu_avg_between_min_and_max 50 storeThree 24 (by decide)⟩

/-- C9: the process trend chart carries exactly one
(timestamp, cpu, memory) triple per returned ProcessSample, in store
order, so its point count equals the row count; an empty result yields
the no-data placeholder naming the process instead of an exception. -/
theorem generate_process_trend_chart_series (db : Store) (process_name : String) :
    (db.get_process_trend process_name = [] →
      generate_process_trend_chart db process_name =
        TrendChart.noData ("No data available for " ++ process_name)) ∧
    (db.get_process_trend process_name ≠ [] →
      ∃ pts, generate_process_trend_chart db process_name = TrendChart.figure pts ∧
        pts.length = (db.get_process_trend process_name).length ∧
        ∀ i, i < (db.get_process_trend process_name).length →
          ∀ hi : i < (db.get_process_trend process_name).length,
          pts[i]? = some (((db.get_process_trend process_name).get ⟨i, hi⟩).timestamp,
            ((db.get_process_trend process_name).get ⟨i, hi⟩).cpu_percent,
            ((db.get_process_trend process_name).get ⟨i, hi⟩).memory_mb)) := by
  constructor
  · intro h
    simp [generate_process_trend_chart, h]
  · intro h
    refine ⟨(db.get_process_trend process_name).map
      (fun s => (s.timestamp, s.cpu_percent, s.memory_mb)), ?_, by simp, ?_⟩
    · simp [generate_process_trend_chart, h]
    · intro i _ hi
      rw [List.getElem?_map, List.getElem?_eq_getElem hi]
      simp [List.get_eq_getElem]

/-- C9 witness: the empty store and the two-sample store. -/
theorem generate_process_trend_chart_series_witness :
    generate_process_trend_chart storeEmpty "ghost" =
      TrendChart.noData ("No data available for " ++ "ghost") ∧
    (∃ pts, generate_process_trend_chart storeThree "chrome" = TrendChart.figure pts ∧
      pts.length = (storeThree.get_process_trend "chrome").length ∧
      ∀ i, i < (storeThree.get_process_trend "chrome").length →
        ∀ hi : i < (storeThree.get_process_trend "chrome").length,
        pts[i]? = some (((storeThree.get_process_trend "chrome").get ⟨i, hi⟩).timestamp,
          ((storeThree.get_process_trend "chrome").get ⟨i, hi⟩).cpu_percent,
          ((storeThree.get_process_trend "chrome").get ⟨i, hi⟩).memory_mb)) :=
  ⟨(generate_process_trend_chart_series storeEmpty "ghost").1 rfl,
   (generate_process_trend_chart_series storeThree "chrome").2 (by decide)⟩

/-- C10: on non-empty data, each maximum field dominates the matching
average field, and the observed window is well-ordered. -/
theorem aggregate_ordering_invariants (now : ℚ) (db : Store) (hours : ℤ)
    (process_name : String)
    (h1 : db.get_system_history hours ≠ [])
    (h2 : db.get_process_trend process_name ≠ []) :
    (get_system_summary now db hours).cpu_avg ≤ (get_system_summary now db hours).cpu_max ∧
    (get_system_summary now db hours).memory_avg ≤ (get_system_summary now db hours).memory_max ∧
    (get_system_summary now db hours).disk_avg ≤ (get_system_summary now db hours).disk_max ∧
    (get_system_summary now db hours).start_time ≤ (get_system_summary now db hours).end_time ∧
    (get_process_analysis db process_name).cpu_avg ≤
      (get_process_analysis db process_name).cpu_max ∧
    (get_process_analysis db process_name).memory_avg ≤
      (get_process_analysis db process_name).memory_max := by
  have hc : (db.get_system_history hours).map SystemSample.cpu_percent ≠ [] := by
    simpa using h1
  have hm : (db.get_system_history hours).map SystemSample.memory_percent ≠ [] := by
    simpa using h1
  have hd : (db.get_system_history hours).map SystemSample.disk_percent ≠ [] := by
    simpa using h1
  have ht : (db.get_system_history hours).map SystemSample.timestamp ≠ [] := by
    simpa using h1
  have hpc : (db.get_process_trend process_name).map ProcessSample.cpu_percent ≠ [] := by
    simpa using h2
  have hpm : (db.get_process_trend process_name).map ProcessSample.memory_mb ≠ [] := by
    simpa using h2
  simp only [get_system_summary, get_process_analysis, h1, h2, if_neg, reduceIte]
  exact ⟨listMean_le_listMax _ hc, listMean_le_listMax _ hm, listMean_le_listMax _ hd,
    listMin_le_listMax _ ht, listMean_le_listMax _ hpc, listMean_le_listMax _ hpm⟩

/-- C10 witness: `storeThree` for both the system window and the trend. -/
theorem aggregate_ordering_invariants_witness :
    storeThree.get_system_history 24 ≠ [] ∧ storeThree.get_process_trend "chrome" ≠ [] ∧
    ((get_system_summary 50 storeThree 24).cpu_avg ≤ (get_system_summary 50 storeThree 24).cpu_max ∧
    (get_system_summary 50 storeThree 24).memory_avg ≤ (get_system_summary 50 storeThree 24).memory_max ∧
    (get_system_summary 50 storeThree 24).disk_avg ≤ (get_system_summary 50 storeThree 24).disk_max ∧
    (get_system_summary 50 storeThree 24).start_time ≤ (get_system_summary 50 storeThree 24).end_time ∧
    (get_process_analysis storeThree "chrome").cpu_avg ≤
      (get_process_analysis storeThree "chrome").cpu_max ∧
    (get_process_analysis storeThree "chrome").memory_avg ≤
      (get_process_analysis storeThree "chrome").memory_max) :=
  ⟨by decide, by decide,
   aggregate_ordering_invariants 50 storeThree 24 "chrome" (by decide) (by decide)⟩

/-- C3 counterexample: at the invalid inputs `hours = 0`, `limit = 0` and
the empty process name, no operation rejects: each returns the ordinary
result computed from the store's response (here one row each for
`storeOne`, and the zero-fill for `storeEmpty`), so the query is forwarded
to the store and the output tracks the store's contents. -/
theorem no_rejection_of_invalid_input_counterexample :
    (get_system_summary 0 storeOne 0).data_points = 1 ∧
    (get_system_summary 0 storeEmpty 0).data_points = 0 ∧
    get_top_processes storeOne 0 = [⟨"idle", 4, 20, 7⟩] ∧
    (get_process_analysis storeOne "").data_points = 1 := by
  refine ⟨rfl, rfl, rfl, rfl⟩

/-- C3 amended: the engine performs no input validation; for non-positive
`hours`/`limit` and the empty process name it forwards the query to the
store unchanged and returns the ordinary result computed from the store's
response. -/
theorem no_input_validation (now : ℚ) (db : Store) (hours limit : ℤ) (name : String)
    ( _h1 : hours ≤ 0) ( _h2 : limit ≤ 0) ( _h3 : name = "") :
    (get_system_summary now db hours).data_points = (db.get_system_history hours).length ∧
    get_top_processes db limit = db.get_top_processes_by_cpu limit ∧
    (get_process_analysis db name).data_points = (db.get_process_trend name).length := by
  refine ⟨?_, rfl, ?_⟩
  · by_cases hdf : db.get_system_history hours = []
    · simp [get_system_summary, hdf]
    · simp [get_system_summary, hdf]
  · by_cases hdf : db.get_process_trend name = []
    · simp [get_process_analysis, hdf]
    · simp [get_process_analysis, hdf]

/-- C3 amended witness: `hours = 0`, `limit = -1`, empty name on `storeOne`. -/
theorem no_input_validation_witness :
    (0 : ℤ) ≤ 0 ∧ (-1 : ℤ) ≤ 0 ∧ ("" : String) = "" ∧
    ((get_system_summary 0 storeOne 0).data_points =
        (storeOne.get_system_history 0).length ∧
      get_top_processes storeOne (-1) = storeOne.get_top_processes_by_cpu (-1) ∧
      (get_process_analysis storeOne "").data_points =
        (storeOne.get_process_trend "").length) :=
  ⟨by decide, by decide, rfl,
   no_input_validation 0 storeOne 0 (-1) "" (by decide) (by decide) rfl⟩

/-- C4 counterexample: the empty-history branch of `get_system_summary`
embeds the wall clock, so two calls with identical `hours` and an
unchanged (empty) store, made at clock readings 0 and 1, return different
summaries — the output is not a function of inputs and store state alone. -/
theorem summary_clock_dependence_counterexample :
    get_system_summary 0 storeEmpty 24 ≠ get_system_summary 1 storeEmpty 24 := by
  intro h
  have h2 := congrArg SystemSummary.end_time h
  simp [get_system_summary, storeEmpty] at h2

/-- C4 amended: at a fixed clock reading, every query operation is a pure
function of its inputs and of the store's response to the one query it
makes: two stores agreeing on that response yield identical outputs, so
repeated calls with identical inputs, unchanged store state and the same
clock reading agree. -/
theorem query_operations_deterministic (now : ℚ) (db1 db2 : Store)
    (hours limit : ℤ) (name : String)
    (h1 : db1.get_system_history hours = db2.get_system_history hours)
    (h2 : db1.get_top_processes_by_cpu limit = db2.get_top_processes_by_cpu limit)
    (h3 : db1.get_process_trend name = db2.get_process_trend name) :
    get_system_summary now db1 hours = get_system_summary now db2 hours ∧
    get_top_processes db1 limit = get_top_processes db2 limit ∧
    get_process_analysis db1 name = get_process_analysis db2 name ∧
    generate_process_trend_chart db1 name = generate_process_trend_chart db2 name := by
  refine ⟨?_, ?_, ?_, ?_⟩
  · simp only [get_system_summary, h1]
  · simp only [get_top_processes, h2]
  · simp only [get_process_analysis, h3]
  · simp only [generate_process_trend_chart, h3]

/-- C4 amended witness: the same store twice, at one clock reading. -/
theorem query_operations_deterministic_witness :
    storeThree.get_system_history 24 = storeThree.get_system_history 24 ∧
    storeThree.get_top_processes_by_cpu 5 = storeThree.get_top_processes_by_cpu 5 ∧
    storeThree.get_process_trend "chrome" = storeThree.get_process_trend "chrome" ∧
    (get_system_summary 50 storeThree 24 = get_system_summary 50 storeThree 24 ∧
      get_top_processes storeThree 5 = get_top_processes storeThree 5 ∧
      get_process_analysis storeThree "chrome" = get_process_analysis storeThree "chrome" ∧
      generate_process_trend_chart storeThree "chrome" =
        generate_process_trend_chart storeThree "chrome") :=
  ⟨rfl, rfl, rfl,
   query_operations_deterministic 50 storeThree storeThree 24 5 "chrome" rfl rfl rfl⟩
